import Mathlib

/-!
Verification of the diagnostic lifecycle layer of `rosinterface_handler`
(`include/rosinterface_handler/diagnostic_subscriber.hpp`).

The file shallowly embeds the three components of the header:

* `TopicDiagnosticWrapper` — owns one named entry in the shared diagnostic
  registry and removes it by name on destruction;
* `DiagnosedSubscriber` — a subscriber that (re)builds its wrapper on every
  subscribe / unsubscribe / `maxTimeDelay` call via `initDiagnostic`;
* `DiagnosedPublisher` — a publisher that rebuilds its diagnosed endpoint on
  every assignment / `maxTimeDelay` call via `init`.

External collaborators (the `diagnostic_updater` registry and the
`message_filters` transport) are not part of this repository; they are
modelled from the spec's capability contracts, and each such definition says
so in its doc comment.  `double` values are only ever stored and compared by
this layer, never computed with, so they are embedded as exact values
(`DVal`: a rational or the `infinity` default of `maxFreq_`).

Every operation additionally returns the list of micro-`Event`s it performs,
in program order, so that ordering properties (destroy-before-create,
collaborator-call position) are statements about the emitted trace.
-/

/-- Exact model of the `double` values this layer stores: all values the code
ever writes are literals (`0.`, user-supplied bounds) or
`std::numeric_limits<double>::infinity()`; the layer never does arithmetic on
them, so rationals plus an infinity point embed them faithfully. -/
inductive DVal where
  | fin : ℚ → DVal
  | inf : DVal
deriving DecidableEq

/-- Modelled from the spec: the shared diagnostic registry collaborator
(`diagnostic_updater::Updater`), reduced to the capability contract the spec
states — register-by-name and remove-by-name, where removing an absent key is
a no-op.  Entries are identified by their registered name. -/
structure Updater where
  tasks : List String
deriving DecidableEq

/-- Registering a named check appends it to the registry. -/
def Updater.add (u : Updater) (name : String) : Updater :=
  ⟨u.tasks ++ [name]⟩

/-- Modelled from the spec: `removeByName` removes the (first) task with the
given name and is a no-op when the name is absent. -/
def Updater.removeByName (u : Updater) (name : String) : Updater :=
  ⟨u.tasks.erase name⟩

/-- How many registered entries carry the given name. -/
def Updater.count (u : Updater) (name : String) : Nat :=
  u.tasks.count name

/-- Micro-events emitted by the layer, in program order: registry bookkeeping
(`addEntry`/`removeEntry`), calls into the transport collaborator
(`collabSubscribe`, `collabResubscribe`, `collabUnsubscribe`, `send`) and
ticks of an entry. -/
inductive Event where
  | addEntry : String → Event
  | removeEntry : String → Event
  | collabSubscribe : String → Event
  | collabResubscribe : Event
  | collabUnsubscribe : Event
  | send : Event
  | tick : String → ℚ → Event
deriving DecidableEq

/-- `TopicDiagnosticWrapper`: owns the registry entry `name`.  The
`TopicDiagnostic` member registers `name` at construction; the staleness bound
is the `TimeStampStatusParam(0., maxTimeDelay_)` value captured by value at
construction (`stampMaxDelay`).  The frequency bounds are NOT stored here:
`FrequencyStatusParam(&minFreq_, &maxFreq_, 0)` holds pointers into the owning
object, so they are read from the owner at evaluation time (see
`DiagnosedSubscriber.effMinFreq`). -/
structure TopicDiagnosticWrapper where
  name : String
  stampMaxDelay : DVal
deriving DecidableEq

/-- Destructor of `TopicDiagnosticWrapper`: unconditionally calls
`updater_.removeByName(diag_.getName())`. -/
def TopicDiagnosticWrapper.destroy (w : TopicDiagnosticWrapper) (u : Updater) :
    Updater × List Event :=
  (u.removeByName w.name, [Event.removeEntry w.name])

/-- State of a `DiagnosedSubscriber<MsgT>`.

`minFreq_`, `maxFreq_`, `maxTimeDelay_` and `diagnostic_` are the fields of the
class (defaults `0.`, infinity, `0.`, null).  `lastTopic_` and `subscribed_`
model the inherited transport collaborator (`message_filters`-style
`SubscriberBase`), which is not part of this repository.  Modelled from the
spec: the current topic name is empty when inactive, while the last known
target persists so that the nullary `subscribe()` can re-subscribe to it. -/
structure DiagnosedSubscriber where
  lastTopic_ : String
  subscribed_ : Bool
  minFreq_ : DVal
  maxFreq_ : DVal
  maxTimeDelay_ : DVal
  diagnostic_ : Option TopicDiagnosticWrapper
deriving DecidableEq

/-- A freshly constructed `DiagnosedSubscriber`: member initializers
`minFreq_{0.}`, `maxFreq_{infinity}`, `maxTimeDelay_{0.}`, null wrapper, and an
inactive transport. -/
def freshSubscriber : DiagnosedSubscriber :=
  { lastTopic_ := ""
    subscribed_ := false
    minFreq_ := DVal.fin 0
    maxFreq_ := DVal.inf
    maxTimeDelay_ := DVal.fin 0
    diagnostic_ := none }

/-- Modelled from the spec: `SubscriberBase::getTopic()` — the current topic
name, empty when inactive (spec data model of DiagnosedSubscription). -/
def DiagnosedSubscriber.getTopic (s : DiagnosedSubscriber) : String :=
  if s.subscribed_ then s.lastTopic_ else ""

/-- Registry effect of `diagnostic_.reset()`: if a wrapper is owned, its
destructor removes its name; otherwise nothing happens. -/
def DiagnosedSubscriber.resetUpd (s : DiagnosedSubscriber) (u : Updater) : Updater :=
  match s.diagnostic_ with
  | none => u
  | some w => u.removeByName w.name

/-- Events emitted by `diagnostic_.reset()`. -/
def DiagnosedSubscriber.resetTrace (s : DiagnosedSubscriber) : List Event :=
  match s.diagnostic_ with
  | none => []
  | some w => [Event.removeEntry w.name]

/-- Result of one subscriber operation: the new subscriber state, the new
registry state, and the events emitted, in program order. -/
structure SubStepResult where
  sub : DiagnosedSubscriber
  upd : Updater
  trace : List Event
deriving DecidableEq

/-- `DiagnosedSubscriber::initDiagnostic(name)`: destroy the current wrapper
(`diagnostic_.reset()`), return early if `name.empty()`, otherwise construct a
new `TopicDiagnosticWrapper` keyed `name + " subscriber"`, which registers
that key; the staleness bound `maxTimeDelay_` is captured by value. -/
def DiagnosedSubscriber.initDiagnostic (s : DiagnosedSubscriber) (u : Updater)
    (name : String) : SubStepResult :=
  if name = "" then
    ⟨{ s with diagnostic_ := none }, s.resetUpd u, s.resetTrace⟩
  else
    ⟨{ s with diagnostic_ := some ⟨name ++ " subscriber", s.maxTimeDelay_⟩ },
      (s.resetUpd u).add (name ++ " subscriber"),
      s.resetTrace ++ [Event.addEntry (name ++ " subscriber")]⟩

/-- `DiagnosedSubscriber::subscribe(nh, topic, queueSize, ...)`: first the
collaborator call `SubscriberT::subscribe(...)` (modelled from the spec:
records the target and activates the subscription), then
`initDiagnostic(topic)`. -/
def DiagnosedSubscriber.subscribeTopic (s : DiagnosedSubscriber) (u : Updater)
    (topic : String) : SubStepResult :=
  let s1 := { s with lastTopic_ := topic, subscribed_ := true }
  let r := s1.initDiagnostic u topic
  ⟨r.sub, r.upd, Event.collabSubscribe topic :: r.trace⟩

/-- `DiagnosedSubscriber::subscribe()`: the collaborator re-subscribes to the
last known target (modelled from the spec), then
`initDiagnostic(this->getTopic())`. -/
def DiagnosedSubscriber.resubscribe (s : DiagnosedSubscriber) (u : Updater) :
    SubStepResult :=
  let s1 := { s with subscribed_ := true }
  let r := s1.initDiagnostic u s1.getTopic
  ⟨r.sub, r.upd, Event.collabResubscribe :: r.trace⟩

/-- `DiagnosedSubscriber::unsubscribe()`: the collaborator disconnects
(modelled from the spec: the subscription becomes inactive), then
`initDiagnostic("")`. -/
def DiagnosedSubscriber.unsubscribe (s : DiagnosedSubscriber) (u : Updater) :
    SubStepResult :=
  let s1 := { s with subscribed_ := false }
  let r := s1.initDiagnostic u ""
  ⟨r.sub, r.upd, Event.collabUnsubscribe :: r.trace⟩

/-- `DiagnosedSubscriber::minFrequency(v)`: stores the bound and returns; no
other member is touched, no registry interaction, no rebuild. -/
def DiagnosedSubscriber.minFrequency (s : DiagnosedSubscriber) (v : ℚ) :
    DiagnosedSubscriber :=
  { s with minFreq_ := DVal.fin v }

/-- `DiagnosedSubscriber::maxTimeDelay(v)`: stores the bound, then
`initDiagnostic(this->getTopic())` — an immediate rebuild. -/
def DiagnosedSubscriber.maxTimeDelay (s : DiagnosedSubscriber) (u : Updater)
    (v : ℚ) : SubStepResult :=
  let s1 := { s with maxTimeDelay_ := DVal.fin v }
  s1.initDiagnostic u s1.getTopic

/-- `DiagnosedSubscriber::onMessage(msg)`: the body is
`diagnostic_->tick(msg->header.stamp)` with NO null check; when no wrapper is
owned the null `unique_ptr` is dereferenced — undefined behavior, embedded as
`none`.  A defined result (`some trace`) exists only when a wrapper exists. -/
def DiagnosedSubscriber.onMessage (s : DiagnosedSubscriber) (stamp : ℚ) :
    Option (List Event) :=
  match s.diagnostic_ with
  | none => none
  | some w => some [Event.tick w.name stamp]

/-- Destruction of a `DiagnosedSubscriber`: the owned `unique_ptr` destroys
the wrapper if present, which removes its registered name. -/
def DiagnosedSubscriber.destroy (s : DiagnosedSubscriber) (u : Updater) :
    Updater × List Event :=
  match s.diagnostic_ with
  | none => (u, [])
  | some w => w.destroy u

/-- Frequency bounds seen by a live entry: `FrequencyStatusParam` holds
POINTERS `&minFreq_`/`&maxFreq_` into the owner, so evaluation reads the
owner's current field.  `none` when no entry is live. -/
def DiagnosedSubscriber.effMinFreq (s : DiagnosedSubscriber) : Option DVal :=
  s.diagnostic_.map fun _ => s.minFreq_

/-- Staleness bound seen by a live entry: `TimeStampStatusParam` captured
`maxTimeDelay_` BY VALUE at entry creation, so evaluation reads the captured
copy, not the owner's current field. -/
def DiagnosedSubscriber.effStampMaxDelay (s : DiagnosedSubscriber) : Option DVal :=
  s.diagnostic_.map fun w => w.stampMaxDelay

/-- A subscriber together with the shared registry. -/
structure SubSys where
  sub : DiagnosedSubscriber
  upd : Updater
deriving DecidableEq

/-- The lifecycle calls a caller can make on a `DiagnosedSubscriber`. -/
inductive SubOp where
  | subscribeTo : String → SubOp
  | resubscribe : SubOp
  | unsubscribe : SubOp
  | minFrequency : ℚ → SubOp
  | maxTimeDelay : ℚ → SubOp
deriving DecidableEq

/-- One lifecycle call on subscriber plus registry. -/
def subStep (sys : SubSys) : SubOp → SubStepResult
  | SubOp.subscribeTo t => sys.sub.subscribeTopic sys.upd t
  | SubOp.resubscribe => sys.sub.resubscribe sys.upd
  | SubOp.unsubscribe => sys.sub.unsubscribe sys.upd
  | SubOp.minFrequency v => ⟨sys.sub.minFrequency v, sys.upd, []⟩
  | SubOp.maxTimeDelay v => sys.sub.maxTimeDelay sys.upd v

/-- Forget the trace of a step. -/
def SubStepResult.toSys (r : SubStepResult) : SubSys :=
  ⟨r.sub, r.upd⟩

/-- Run a sequence of lifecycle calls. -/
def runSubOps (sys : SubSys) (ops : List SubOp) : SubSys :=
  ops.foldl (fun acc op => (subStep acc op).toSys) sys

/-- A freshly constructed subscriber next to a registry holding no entry of
this instance. -/
def subFresh : SubSys :=
  ⟨freshSubscriber, ⟨[]⟩⟩

/-- The diagnosed publish endpoint
(`diagnostic_updater::DiagnosedPublisher<const MsgT>`) held by a live
`DiagnosedPublisher`.  Modelled from the spec: its constructor registers a
check under a name the collaborator derives from the endpoint's topic
(`pubDiagName`); the staleness bound is captured by value, the frequency
bounds are pointers into the owner (see `DiagnosedPublisher.effMinFreq`).
`topic` is the topic of the wrapped `ros::Publisher`
(`getPublisher().getTopic()`). -/
structure PubDiag where
  name : String
  topic : String
  stampMaxDelay : DVal
deriving DecidableEq

/-- Modelled from the spec: the registry key the collaborator's diagnosed
publisher derives from the endpoint's topic ("keyed as the endpoint's
internally-assigned diagnostic name (derived from topic)").  The derivation
is opaque to this layer; it is embedded as the topic itself, which keeps
exactly the property the layer relies on: the key is a function of the
topic. -/
def pubDiagName (topic : String) : String :=
  topic

/-- State of a `DiagnosedPublisher<MsgT>`: fields `minFreq_`, `maxFreq_`,
`maxTimeDelay_` (defaults `0.`, infinity, `0.`) and the optionally bound
diagnosed endpoint `publisher_` (a `shared_ptr` whose deleter removes the
registered name).  The `updater_` pointer is the shared registry passed
explicitly to every operation here. -/
structure DiagnosedPublisher where
  minFreq_ : DVal
  maxFreq_ : DVal
  maxTimeDelay_ : DVal
  publisher_ : Option PubDiag
deriving DecidableEq

/-- A freshly constructed `DiagnosedPublisher`: no endpoint bound. -/
def freshPublisher : DiagnosedPublisher :=
  { minFreq_ := DVal.fin 0
    maxFreq_ := DVal.inf
    maxTimeDelay_ := DVal.fin 0
    publisher_ := none }

/-- Result of one publisher operation: new state, new registry, emitted
events in program order. -/
structure PubStepResult where
  pub : DiagnosedPublisher
  upd : Updater
  trace : List Event
deriving DecidableEq

/-- `DiagnosedPublisher::init(publisher)`: if an endpoint is bound,
`publisher_.reset()` runs the deleter, which removes the captured registered
name; then the new `Publisher` is constructed (registering its name, with
`maxTimeDelay_` captured by value) and stored.  The old entry is destroyed
strictly before the new one is created. -/
def DiagnosedPublisher.init (p : DiagnosedPublisher) (u : Updater)
    (topic : String) : PubStepResult :=
  let u1 := match p.publisher_ with
    | none => u
    | some pe => u.removeByName pe.name
  let ev1 : List Event := match p.publisher_ with
    | none => []
    | some pe => [Event.removeEntry pe.name]
  ⟨{ p with publisher_ := some ⟨pubDiagName topic, topic, p.maxTimeDelay_⟩ },
    u1.add (pubDiagName topic),
    ev1 ++ [Event.addEntry (pubDiagName topic)]⟩

/-- `DiagnosedPublisher::operator=(const ros::Publisher&)`: rebinding to a new
endpoint, i.e. `init(publisher)`.  The endpoint is represented by its
topic. -/
def DiagnosedPublisher.assignPublisher (p : DiagnosedPublisher) (u : Updater)
    (topic : String) : PubStepResult :=
  p.init u topic

/-- `DiagnosedPublisher::minFrequency(v)`: stores the bound and returns; no
rebuild, no registry interaction. -/
def DiagnosedPublisher.minFrequency (p : DiagnosedPublisher) (v : ℚ) :
    DiagnosedPublisher :=
  { p with minFreq_ := DVal.fin v }

/-- `DiagnosedPublisher::maxTimeDelay(v)`: stores the bound; if an endpoint is
bound, `init(publisher_->getPublisher())` rebuilds the entry from the
re-fetched current endpoint. -/
def DiagnosedPublisher.maxTimeDelay (p : DiagnosedPublisher) (u : Updater)
    (v : ℚ) : PubStepResult :=
  let p1 := { p with maxTimeDelay_ := DVal.fin v }
  match p.publisher_ with
  | none => ⟨p1, u, []⟩
  | some pe => p1.init u pe.topic

/-- `DiagnosedPublisher::publish(message)`: guarded by `if (!!publisher_)`;
with no endpoint bound nothing at all happens, otherwise the bound diagnosed
endpoint publishes (and ticks internally, inside the collaborator). -/
def DiagnosedPublisher.publish (p : DiagnosedPublisher) (u : Updater) :
    DiagnosedPublisher × Updater × List Event :=
  match p.publisher_ with
  | none => (p, u, [])
  | some _ => (p, u, [Event.send])

/-- Destruction of a `DiagnosedPublisher`: the `shared_ptr` deleter removes
the name that was captured when the entry was created. -/
def DiagnosedPublisher.destroy (p : DiagnosedPublisher) (u : Updater) :
    Updater × List Event :=
  match p.publisher_ with
  | none => (u, [])
  | some pe => (u.removeByName pe.name, [Event.removeEntry pe.name])

/-- Frequency bounds seen by the live publisher entry: read through pointers
into the owner at evaluation time. -/
def DiagnosedPublisher.effMinFreq (p : DiagnosedPublisher) : Option DVal :=
  p.publisher_.map fun _ => p.minFreq_

/-- Staleness bound seen by the live publisher entry: the value captured at
entry creation. -/
def DiagnosedPublisher.effStampMaxDelay (p : DiagnosedPublisher) : Option DVal :=
  p.publisher_.map fun pe => pe.stampMaxDelay

/-- The registered names currently owned by a subscriber instance. -/
def ownedOfSub (s : DiagnosedSubscriber) : List String :=
  match s.diagnostic_ with
  | none => []
  | some w => [w.name]

/-- The registered names currently owned by a publisher instance. -/
def ownedOfPub (p : DiagnosedPublisher) : List String :=
  match p.publisher_ with
  | none => []
  | some pe => [pe.name]

/-- Effect of one event on the set of live entries owned by the instance:
only the instance's own registry bookkeeping changes it. -/
def ownedAfter (owned : List String) : Event → List String
  | Event.removeEntry n => owned.erase n
  | Event.addEntry n => owned ++ [n]
  | _ => owned

/-- Every intermediate set of live owned entries along a trace, the starting
state included. -/
def ownedStates (owned : List String) (tr : List Event) : List (List String) :=
  tr.scanl ownedAfter owned

/-- The C1 invariant of a subscriber state: a wrapper is owned exactly when
the current topic name is non-empty, and the owned wrapper's registered key is
always the current topic name followed by " subscriber". -/
def subInv (s : DiagnosedSubscriber) : Prop :=
  (s.diagnostic_.isSome ↔ s.getTopic ≠ "") ∧
  ∀ w, s.diagnostic_ = some w → w.name = s.getTopic ++ " subscriber"

lemma getTopic_initDiagnostic (s : DiagnosedSubscriber) (u : Updater) (n : String) :
    ((s.initDiagnostic u n).sub).getTopic = s.getTopic := by
  unfold DiagnosedSubscriber.initDiagnostic
  split <;> rfl

lemma diagnostic_initDiagnostic (s : DiagnosedSubscriber) (u : Updater) (n : String) :
    ((s.initDiagnostic u n).sub).diagnostic_ =
      if n = "" then none else some ⟨n ++ " subscriber", s.maxTimeDelay_⟩ := by
  unfold DiagnosedSubscriber.initDiagnostic
  split <;> simp_all

lemma subInv_initDiagnostic (s : DiagnosedSubscriber) (u : Updater) (n : String)
    (hn : n = s.getTopic) : subInv ((s.initDiagnostic u n).sub) := by
  subst hn
  constructor
  · rw [diagnostic_initDiagnostic, getTopic_initDiagnostic]
    by_cases h : s.getTopic = "" <;> simp [h]
  · intro w hw
    rw [diagnostic_initDiagnostic] at hw
    rw [getTopic_initDiagnostic]
    by_cases h : s.getTopic = ""
    · simp [h] at hw
    · simp only [h, if_neg, ite_false] at hw
      cases hw
      rfl

lemma subscribeTopic_sub (s : DiagnosedSubscriber) (u : Updater) (t : String) :
    (s.subscribeTopic u t).sub =
      (({ s with lastTopic_ := t, subscribed_ := true } :
          DiagnosedSubscriber).initDiagnostic u t).sub := rfl

lemma resubscribe_sub (s : DiagnosedSubscriber) (u : Updater) :
    (s.resubscribe u).sub =
      (({ s with subscribed_ := true } : DiagnosedSubscriber).initDiagnostic u
        ({ s with subscribed_ := true } : DiagnosedSubscriber).getTopic).sub := rfl

lemma unsubscribe_sub (s : DiagnosedSubscriber) (u : Updater) :
    (s.unsubscribe u).sub =
      (({ s with subscribed_ := false } : DiagnosedSubscriber).initDiagnostic u "").sub := rfl

lemma maxTimeDelay_sub (s : DiagnosedSubscriber) (u : Updater) (v : ℚ) :
    (s.maxTimeDelay u v).sub =
      (({ s with maxTimeDelay_ := DVal.fin v } : DiagnosedSubscriber).initDiagnostic u
        ({ s with maxTimeDelay_ := DVal.fin v } : DiagnosedSubscriber).getTopic).sub := rfl

lemma subInv_subStep (sys : SubSys) (op : SubOp) (h : subInv sys.sub) :
    subInv (subStep sys op).sub := by
  cases op with
  | subscribeTo t =>
      rw [show (subStep sys (SubOp.subscribeTo t)).sub = (sys.sub.subscribeTopic sys.upd t).sub from rfl,
        subscribeTopic_sub]
      exact subInv_initDiagnostic _ _ _ (by simp [DiagnosedSubscriber.getTopic])
  | resubscribe =>
      rw [show (subStep sys SubOp.resubscribe).sub = (sys.sub.resubscribe sys.upd).sub from rfl,
        resubscribe_sub]
      exact subInv_initDiagnostic _ _ _ rfl
  | unsubscribe =>
      rw [show (subStep sys SubOp.unsubscribe).sub = (sys.sub.unsubscribe sys.upd).sub from rfl,
        unsubscribe_sub]
      exact subInv_initDiagnostic _ _ _ (by simp [DiagnosedSubscriber.getTopic])
  | minFrequency v => exact h
  | maxTimeDelay v =>
      rw [show (subStep sys (SubOp.maxTimeDelay v)).sub = (sys.sub.maxTimeDelay sys.upd v).sub from rfl,
        maxTimeDelay_sub]
      exact subInv_initDiagnostic _ _ _ rfl

lemma subInv_runSubOps (sys : SubSys) (ops : List SubOp) (h : subInv sys.sub) :
    subInv (runSubOps sys ops).sub := by
  induction ops generalizing sys with
  | nil => exact h
  | cons op ops ih => exact ih (subStep sys op).toSys (subInv_subStep sys op h)

lemma subInv_fresh : subInv freshSubscriber := by
  constructor
  · simp [freshSubscriber, DiagnosedSubscriber.getTopic]
  · intro w hw
    simp [freshSubscriber] at hw

/-- Single-instance registry synchronisation: starting from a registry with no
entry of this instance, the registry's tasks are at every point exactly the
names owned by the instance. -/
def regSync (sys : SubSys) : Prop :=
  sys.upd.tasks = ownedOfSub sys.sub

lemma resetUpd_tasks (s : DiagnosedSubscriber) (u : Updater)
    (h : u.tasks = ownedOfSub s) : (s.resetUpd u).tasks = [] := by
  unfold DiagnosedSubscriber.resetUpd
  cases hd : s.diagnostic_ with
  | none => simpa [ownedOfSub, hd] using h
  | some w =>
      simp only [ownedOfSub, hd] at h
      simp [Updater.removeByName, h]

lemma regSync_initDiagnostic (s : DiagnosedSubscriber) (u : Updater) (n : String)
    (h : u.tasks = ownedOfSub s) :
    ((s.initDiagnostic u n).upd).tasks = ownedOfSub (s.initDiagnostic u n).sub := by
  unfold DiagnosedSubscriber.initDiagnostic
  split
  · simp [ownedOfSub, resetUpd_tasks s u h]
  · simp [ownedOfSub, Updater.add, resetUpd_tasks s u h]

lemma regSync_subStep (sys : SubSys) (op : SubOp) (h : regSync sys) :
    regSync (subStep sys op).toSys := by
  cases op with
  | subscribeTo t => exact regSync_initDiagnostic _ _ _ h
  | resubscribe => exact regSync_initDiagnostic _ _ _ h
  | unsubscribe => exact regSync_initDiagnostic _ _ _ h
  | minFrequency v => exact h
  | maxTimeDelay v => exact regSync_initDiagnostic _ _ _ h

lemma regSync_runSubOps (sys : SubSys) (ops : List SubOp) (h : regSync sys) :
    regSync (runSubOps sys ops) := by
  induction ops generalizing sys with
  | nil => exact h
  | cons op ops ih => exact ih (subStep sys op).toSys (regSync_subStep sys op h)

lemma regSync_fresh : regSync subFresh := rfl

/-- C1 (confirmed): for every sequence of subscribe / unsubscribe / threshold
calls on a freshly constructed `DiagnosedSubscriber`, the instance owns a
diagnostic entry if and only if its current topic name is non-empty, and when
the entry exists its registered key equals the current topic name followed by
" subscriber" — a stale key from an earlier topic never survives a topic
change. -/
theorem claim1_entry_iff_topic (ops : List SubOp) :
    ((runSubOps subFresh ops).sub.diagnostic_.isSome ↔
      (runSubOps subFresh ops).sub.getTopic ≠ "") ∧
    ∀ w, (runSubOps subFresh ops).sub.diagnostic_ = some w →
      w.name = (runSubOps subFresh ops).sub.getTopic ++ " subscriber" :=
  subInv_runSubOps subFresh ops subInv_fresh

/-- Witness for C1: after `subscribe(nh, "scan", 10)` the owned entry is keyed
"scan subscriber" = current topic ++ " subscriber". -/
theorem claim1_witness :
    (⟨"scan subscriber", DVal.fin 0⟩ : TopicDiagnosticWrapper).name =
      (runSubOps subFresh [SubOp.subscribeTo "scan"]).sub.getTopic ++ " subscriber" :=
  (claim1_entry_iff_topic [SubOp.subscribeTo "scan"]).2
    ⟨"scan subscriber", DVal.fin 0⟩ rfl

/-- C2 (confirmed): subscribing a fresh subscriber to "scan" leaves the
registry with exactly one entry of this instance, keyed "scan subscriber"; a
subsequent subscribe to "scan2" leaves exactly one entry keyed
"scan2 subscriber" and none keyed "scan subscriber". -/
theorem claim2_concrete_rekey :
    (runSubOps subFresh [SubOp.subscribeTo "scan"]).upd.tasks = ["scan subscriber"] ∧
    (runSubOps subFresh [SubOp.subscribeTo "scan"]).upd.count "scan subscriber" = 1 ∧
    (runSubOps subFresh [SubOp.subscribeTo "scan", SubOp.subscribeTo "scan2"]).upd.tasks =
      ["scan2 subscriber"] ∧
    (runSubOps subFresh [SubOp.subscribeTo "scan", SubOp.subscribeTo "scan2"]).upd.count
      "scan2 subscriber" = 1 ∧
    (runSubOps subFresh [SubOp.subscribeTo "scan", SubOp.subscribeTo "scan2"]).upd.count
      "scan subscriber" = 0 := by
  decide

/-- C8 (confirmed): publishing through a `DiagnosedPublisher` with no endpoint
bound changes nothing: same state, same registry, no event (no send, no entry
created, no error path exists). -/
theorem claim8_publish_unbound_noop (p : DiagnosedPublisher) (u : Updater)
    (h : p.publisher_ = none) :
    p.publish u = (p, u, ([] : List Event)) := by
  simp [DiagnosedPublisher.publish, h]

/-- Witness for C8: a freshly constructed publisher. -/
theorem claim8_witness :
    freshPublisher.publish ⟨[]⟩ = (freshPublisher, (⟨[]⟩ : Updater), ([] : List Event)) :=
  claim8_publish_unbound_noop freshPublisher ⟨[]⟩ rfl

/-- C9 (confirmed): `unsubscribe()` is idempotent — a second consecutive
`unsubscribe()` reproduces exactly the subscriber state and the registry state
left by the first. -/
theorem claim9_unsubscribe_idempotent (s : DiagnosedSubscriber) (u : Updater) :
    ((s.unsubscribe u).sub.unsubscribe (s.unsubscribe u).upd).sub =
      (s.unsubscribe u).sub ∧
    ((s.unsubscribe u).sub.unsubscribe (s.unsubscribe u).upd).upd =
      (s.unsubscribe u).upd := by
  constructor <;>
    simp [DiagnosedSubscriber.unsubscribe, DiagnosedSubscriber.initDiagnostic,
      DiagnosedSubscriber.resetUpd, DiagnosedSubscriber.resetTrace]

/-- C10 (confirmed): the live entry's frequency bounds are read through
pointers into the owner's `minFreq_`/`maxFreq_` fields at evaluation time, so
`minFrequency(v)` changes the bound the EXISTING entry evaluates against
without any rebuild, while the staleness bound the entry evaluates against
stays the value captured at entry creation — for the subscriber and for the
publisher alike. -/
theorem claim10_freq_bounds_by_reference (s : DiagnosedSubscriber)
    (p : DiagnosedPublisher) (v : ℚ) :
    (∀ w, s.diagnostic_ = some w →
      (s.minFrequency v).diagnostic_ = some w ∧
      (s.minFrequency v).effMinFreq = some (DVal.fin v) ∧
      (s.minFrequency v).effStampMaxDelay = some w.stampMaxDelay) ∧
    (∀ pe, p.publisher_ = some pe →
      (p.minFrequency v).publisher_ = some pe ∧
      (p.minFrequency v).effMinFreq = some (DVal.fin v) ∧
      (p.minFrequency v).effStampMaxDelay = some pe.stampMaxDelay) := by
  constructor
  · intro w hw
    refine ⟨hw, ?_, ?_⟩ <;>
      simp [DiagnosedSubscriber.minFrequency, DiagnosedSubscriber.effMinFreq,
        DiagnosedSubscriber.effStampMaxDelay, hw]
  · intro pe hpe
    refine ⟨hpe, ?_, ?_⟩ <;>
      simp [DiagnosedPublisher.minFrequency, DiagnosedPublisher.effMinFreq,
        DiagnosedPublisher.effStampMaxDelay, hpe]

/-- Witness for C10: a subscriber holding the entry "scan subscriber" and a
publisher bound to topic "out": after `minFrequency(5)` the live entries
evaluate against minimum frequency 5 with no rebuild. -/
theorem claim10_witness :
    (({ freshSubscriber with
        lastTopic_ := "scan"
        subscribed_ := true
        diagnostic_ := some ⟨"scan subscriber", DVal.fin 0⟩ } :
          DiagnosedSubscriber).minFrequency 5).effMinFreq = some (DVal.fin 5) ∧
    (({ freshPublisher with publisher_ := some ⟨"out", "out", DVal.fin 0⟩ } :
          DiagnosedPublisher).minFrequency 5).effMinFreq = some (DVal.fin 5) :=
  ⟨((claim10_freq_bounds_by_reference _ freshPublisher 5).1
      ⟨"scan subscriber", DVal.fin 0⟩ rfl).2.1,
    ((claim10_freq_bounds_by_reference freshSubscriber _ 5).2
      ⟨"out", "out", DVal.fin 0⟩ rfl).2.1⟩

/-- C5 (confirmed): `minFrequency(v)` only stores the bound — subscriber state
otherwise unchanged, registry untouched, no event, no rebuild — while
`maxTimeDelay(v)` stores the bound and immediately destroys and recreates the
diagnostic entry even while active, the new entry capturing the new bound. -/
theorem claim5_threshold_asymmetry (s : DiagnosedSubscriber) (u : Updater) (v : ℚ) :
    s.minFrequency v = { s with minFreq_ := DVal.fin v } ∧
    (subStep ⟨s, u⟩ (SubOp.minFrequency v)).upd = u ∧
    (subStep ⟨s, u⟩ (SubOp.minFrequency v)).trace = [] ∧
    ∀ w, s.diagnostic_ = some w → s.getTopic ≠ "" →
      (s.maxTimeDelay u v).trace =
        [Event.removeEntry w.name, Event.addEntry (s.getTopic ++ " subscriber")] ∧
      (s.maxTimeDelay u v).sub.diagnostic_ =
        some ⟨s.getTopic ++ " subscriber", DVal.fin v⟩ ∧
      (s.maxTimeDelay u v).sub.maxTimeDelay_ = DVal.fin v := by
  refine ⟨rfl, rfl, rfl, ?_⟩
  intro w hw hg
  simp only [DiagnosedSubscriber.getTopic] at hg
  refine ⟨?_, ?_, ?_⟩ <;>
    simp [DiagnosedSubscriber.maxTimeDelay, DiagnosedSubscriber.initDiagnostic,
      DiagnosedSubscriber.resetTrace, DiagnosedSubscriber.getTopic, hg, hw]

/-- Witness for C5: active on "scan" with entry "scan subscriber", then
`maxTimeDelay(2)`: the entry is destroyed and recreated capturing bound 2. -/
theorem claim5_witness :
    (({ freshSubscriber with
        lastTopic_ := "scan"
        subscribed_ := true
        diagnostic_ := some ⟨"scan subscriber", DVal.fin 0⟩ } :
          DiagnosedSubscriber).maxTimeDelay ⟨["scan subscriber"]⟩ 2).trace =
      [Event.removeEntry "scan subscriber", Event.addEntry "scan subscriber"] := by
  have h := (claim5_threshold_asymmetry
    ({ freshSubscriber with
        lastTopic_ := "scan"
        subscribed_ := true
        diagnostic_ := some ⟨"scan subscriber", DVal.fin 0⟩ } : DiagnosedSubscriber)
    ⟨["scan subscriber"]⟩ 2).2.2.2 ⟨"scan subscriber", DVal.fin 0⟩ rfl (by decide)
  exact h.1

/-- C6 fails on the code: `onMessage` is
`diagnostic_->tick(msg->header.stamp)` with no null check, so on a freshly
constructed subscriber (no entry owned) delivering a message dereferences the
null wrapper pointer — undefined behavior, not a harmless no-op. -/
theorem claim6_counterexample :
    freshSubscriber.diagnostic_ = none ∧ freshSubscriber.onMessage 0 = none :=
  ⟨rfl, rfl⟩

/-- C6 (amended): a delivered message causes `tick(message.timestamp)` on the
current entry when the subscriber owns one; when no entry is owned the handler
dereferences the null entry pointer (undefined behavior, `none`) instead of
being a harmless no-op. -/
theorem claim6_tick_on_message (s : DiagnosedSubscriber) (t : ℚ) :
    (∀ w, s.diagnostic_ = some w → s.onMessage t = some [Event.tick w.name t]) ∧
    (s.diagnostic_ = none → s.onMessage t = none) := by
  constructor
  · intro w hw
    simp [DiagnosedSubscriber.onMessage, hw]
  · intro h
    simp [DiagnosedSubscriber.onMessage, h]

/-- Witness for C6 (amended): an active subscriber ticks its entry with the
message timestamp. -/
theorem claim6_witness :
    ({ freshSubscriber with
        lastTopic_ := "scan"
        subscribed_ := true
        diagnostic_ := some ⟨"scan subscriber", DVal.fin 0⟩ } :
          DiagnosedSubscriber).onMessage 7 = some [Event.tick "scan subscriber" 7] :=
  (claim6_tick_on_message _ 7).1 ⟨"scan subscriber", DVal.fin 0⟩ rfl

lemma initDiagnostic_trace (s : DiagnosedSubscriber) (u : Updater) (n : String) :
    (s.initDiagnostic u n).trace =
      s.resetTrace ++ if n = "" then [] else [Event.addEntry (n ++ " subscriber")] := by
  unfold DiagnosedSubscriber.initDiagnostic
  split <;> simp_all

lemma ownedStates_cons_id (owned : List String) (e : Event) (tr : List Event)
    (he : ownedAfter owned e = owned) :
    ownedStates owned (e :: tr) = owned :: ownedStates owned tr := by
  simp [ownedStates, List.scanl, he]

lemma ownedOfSub_length (s : DiagnosedSubscriber) : (ownedOfSub s).length ≤ 1 := by
  unfold ownedOfSub
  cases s.diagnostic_ <;> simp

lemma ownedStates_initDiagnostic (s : DiagnosedSubscriber) (u : Updater) (n : String) :
    ∀ o ∈ ownedStates (ownedOfSub s) (s.initDiagnostic u n).trace, o.length ≤ 1 := by
  rw [initDiagnostic_trace]
  cases hd : s.diagnostic_ with
  | none =>
      by_cases hn : n = "" <;>
        simp [DiagnosedSubscriber.resetTrace, hd, hn, ownedStates, ownedAfter,
          ownedOfSub, List.scanl]
  | some w =>
      by_cases hn : n = "" <;>
        simp [DiagnosedSubscriber.resetTrace, hd, hn, ownedStates, ownedAfter,
          ownedOfSub, List.scanl]

/-- The registry state after `subscribe(nh, "a", ...)` on a fresh subscriber,
used as the concrete starting point of the C7 counterexample. -/
def subAfterA : SubSys := runSubOps subFresh [SubOp.subscribeTo "a"]

/-- C7 fails on the code: re-subscribing to "b" while holding the entry
"a subscriber" emits the collaborator subscribe call FIRST and only then
destroys the old entry and creates the new one — not the claimed
destroy-old → collaborator-action → create-new order. -/
theorem claim7_counterexample :
    (subAfterA.sub.subscribeTopic subAfterA.upd "b").trace =
      [Event.collabSubscribe "b", Event.removeEntry "a subscriber",
        Event.addEntry "b subscriber"] ∧
    (subAfterA.sub.subscribeTopic subAfterA.upd "b").trace ≠
      [Event.removeEntry "a subscriber", Event.collabSubscribe "b",
        Event.addEntry "b subscriber"] := by
  constructor
  · rfl
  · decide

/-- C7 (amended): every lifecycle operation performs its collaborator action
first (when it has one) and its own bookkeeping afterwards, the bookkeeping
itself in destroy-old-then-create-new order: the trace of
subscribe / unsubscribe / re-subscribe is the collaborator event followed by
the destroy events and then the create events, the threshold rebuild has no
collaborator event, and along every prefix of every such trace at most one
entry of this instance is live — so a failure in the collaborator action
leaves the bookkeeping untouched (the old entry still in place), never two
entries live. -/
theorem claim7_collaborator_first (s : DiagnosedSubscriber) (u : Updater)
    (t : String) (v : ℚ) :
    ((s.subscribeTopic u t).trace =
      Event.collabSubscribe t ::
        (s.resetTrace ++ if t = "" then [] else [Event.addEntry (t ++ " subscriber")])) ∧
    ((s.unsubscribe u).trace = Event.collabUnsubscribe :: s.resetTrace) ∧
    ((s.resubscribe u).trace =
      Event.collabResubscribe ::
        (s.resetTrace ++
          if s.lastTopic_ = "" then []
          else [Event.addEntry (s.lastTopic_ ++ " subscriber")])) ∧
    ((s.maxTimeDelay u v).trace =
      s.resetTrace ++
        if s.getTopic = "" then []
        else [Event.addEntry (s.getTopic ++ " subscriber")]) ∧
    (∀ o ∈ ownedStates (ownedOfSub s) (s.subscribeTopic u t).trace, o.length ≤ 1) ∧
    (∀ o ∈ ownedStates (ownedOfSub s) (s.unsubscribe u).trace, o.length ≤ 1) ∧
    (∀ o ∈ ownedStates (ownedOfSub s) (s.resubscribe u).trace, o.length ≤ 1) ∧
    (∀ o ∈ ownedStates (ownedOfSub s) (s.maxTimeDelay u v).trace, o.length ≤ 1) := by
  refine ⟨?_, ?_, ?_, ?_, ?_, ?_, ?_, ?_⟩
  · rw [show (s.subscribeTopic u t).trace =
        Event.collabSubscribe t ::
          (({ s with lastTopic_ := t, subscribed_ := true } :
            DiagnosedSubscriber).initDiagnostic u t).trace from rfl,
      initDiagnostic_trace]
    rfl
  · rw [show (s.unsubscribe u).trace =
        Event.collabUnsubscribe ::
          (({ s with subscribed_ := false } :
            DiagnosedSubscriber).initDiagnostic u "").trace from rfl,
      initDiagnostic_trace]
    cases hd : s.diagnostic_ <;> simp [DiagnosedSubscriber.resetTrace, hd]
  · rw [show (s.resubscribe u).trace =
        Event.collabResubscribe ::
          (({ s with subscribed_ := true } :
            DiagnosedSubscriber).initDiagnostic u s.lastTopic_).trace from rfl,
      initDiagnostic_trace]
    rfl
  · rw [show (s.maxTimeDelay u v).trace =
        (({ s with maxTimeDelay_ := DVal.fin v } :
          DiagnosedSubscriber).initDiagnostic u s.getTopic).trace from rfl,
      initDiagnostic_trace]
    rfl
  · intro o ho
    rw [show (s.subscribeTopic u t).trace =
        Event.collabSubscribe t ::
          (({ s with lastTopic_ := t, subscribed_ := true } :
            DiagnosedSubscriber).initDiagnostic u t).trace from rfl,
      ownedStates_cons_id _ _ _ rfl] at ho
    rcases List.mem_cons.mp ho with h | h
    · exact h ▸ ownedOfSub_length s
    · exact ownedStates_initDiagnostic
        ({ s with lastTopic_ := t, subscribed_ := true }) u t o h
  · intro o ho
    rw [show (s.unsubscribe u).trace =
        Event.collabUnsubscribe ::
          (({ s with subscribed_ := false } :
            DiagnosedSubscriber).initDiagnostic u "").trace from rfl,
      ownedStates_cons_id _ _ _ rfl] at ho
    rcases List.mem_cons.mp ho with h | h
    · exact h ▸ ownedOfSub_length s
    · exact ownedStates_initDiagnostic
        ({ s with subscribed_ := false }) u "" o h
  · intro o ho
    rw [show (s.resubscribe u).trace =
        Event.collabResubscribe ::
          (({ s with subscribed_ := true } :
            DiagnosedSubscriber).initDiagnostic u s.lastTopic_).trace from rfl,
      ownedStates_cons_id _ _ _ rfl] at ho
    rcases List.mem_cons.mp ho with h | h
    · exact h ▸ ownedOfSub_length s
    · exact ownedStates_initDiagnostic
        ({ s with subscribed_ := true }) u s.lastTopic_ o h
  · intro o ho
    rw [show (s.maxTimeDelay u v).trace =
        (({ s with maxTimeDelay_ := DVal.fin v } :
          DiagnosedSubscriber).initDiagnostic u s.getTopic).trace from rfl] at ho
    exact ownedStates_initDiagnostic
      ({ s with maxTimeDelay_ := DVal.fin v }) u s.getTopic o ho

/-- Witness for C7 (amended): concrete re-subscription from "a" to "b" — the
trace is the collaborator call, then the destroy, then the create, and every
intermediate live-entry set has at most one element. -/
theorem claim7_witness :
    (subAfterA.sub.subscribeTopic subAfterA.upd "b").trace =
      Event.collabSubscribe "b" ::
        (subAfterA.sub.resetTrace ++
          if "b" = "" then [] else [Event.addEntry ("b" ++ " subscriber")]) ∧
    ([] : List String).length ≤ 1 :=
  ⟨(claim7_collaborator_first subAfterA.sub subAfterA.upd "b" 0).1,
    (claim7_collaborator_first subAfterA.sub subAfterA.upd "b" 0).2.2.2.2.1
      [] (by decide)⟩

/-- C3 (confirmed): rebinding a `DiagnosedPublisher` to a new endpoint or
changing `maxTimeDelay` while bound emits exactly the destroy of the old
entry (its name removed from the registry) strictly before the create of the
new one, and along every prefix of the rebuild trace at most one entry of
this instance is live. -/
theorem claim3_pub_destroy_before_create (p : DiagnosedPublisher) (u : Updater)
    (t : String) (v : ℚ) :
    (∀ o ∈ ownedStates (ownedOfPub p) (p.assignPublisher u t).trace, o.length ≤ 1) ∧
    (∀ pe, p.publisher_ = some pe →
      (p.assignPublisher u t).trace =
        [Event.removeEntry pe.name, Event.addEntry (pubDiagName t)] ∧
      (p.maxTimeDelay u v).trace =
        [Event.removeEntry pe.name, Event.addEntry (pubDiagName pe.topic)] ∧
      ∀ o ∈ ownedStates (ownedOfPub p) (p.maxTimeDelay u v).trace, o.length ≤ 1) ∧
    (p.publisher_ = none →
      (p.assignPublisher u t).trace = [Event.addEntry (pubDiagName t)] ∧
      (p.maxTimeDelay u v).trace = []) := by
  refine ⟨?_, ?_, ?_⟩
  · intro o ho
    cases hd : p.publisher_ with
    | none =>
        simp [DiagnosedPublisher.assignPublisher, DiagnosedPublisher.init, hd,
          ownedStates, ownedAfter, ownedOfPub, List.scanl] at ho
        rcases ho with h | h <;> simp [h]
    | some pe =>
        simp [DiagnosedPublisher.assignPublisher, DiagnosedPublisher.init, hd,
          ownedStates, ownedAfter, ownedOfPub, List.scanl] at ho
        rcases ho with h | h | h <;> simp [h]
  · intro pe hpe
    refine ⟨?_, ?_, ?_⟩
    · simp [DiagnosedPublisher.assignPublisher, DiagnosedPublisher.init, hpe]
    · simp [DiagnosedPublisher.maxTimeDelay, DiagnosedPublisher.init, hpe]
    · intro o ho
      simp [DiagnosedPublisher.maxTimeDelay, DiagnosedPublisher.init, hpe,
        ownedStates, ownedAfter, ownedOfPub, List.scanl] at ho
      rcases ho with h | h | h <;> simp [h]
  · intro hnone
    constructor <;>
      simp [DiagnosedPublisher.assignPublisher, DiagnosedPublisher.maxTimeDelay,
        DiagnosedPublisher.init, hnone]

/-- A publisher bound to topic "a", concrete input of the C3 witness. -/
def pubBoundA : DiagnosedPublisher :=
  { freshPublisher with publisher_ := some ⟨"a", "a", DVal.fin 0⟩ }

/-- Witness for C3: rebinding a publisher from topic "a" to topic "b" removes
entry "a" strictly before creating entry "b". -/
theorem claim3_witness :
    (pubBoundA.assignPublisher ⟨["a"]⟩ "b").trace =
      [Event.removeEntry "a", Event.addEntry (pubDiagName "b")] :=
  ((claim3_pub_destroy_before_create pubBoundA ⟨["a"]⟩ "b" 0).2.1
    ⟨"a", "a", DVal.fin 0⟩ rfl).1

/-- C4 (confirmed): the wrapper destructor unconditionally calls
remove-by-name with the key this instance registered; removing an absent key
is a no-op; destroying a reachable `DiagnosedSubscriber` leaves zero registry
entries under its derived key; and destroying a bound `DiagnosedPublisher`
(whose key occurs at most once, as it is the only live owner) leaves zero
entries under its key while emitting exactly the remove-by-name call. -/
theorem claim4_destruction_cleanup :
    (∀ (w : TopicDiagnosticWrapper) (u : Updater),
      w.destroy u = (u.removeByName w.name, [Event.removeEntry w.name])) ∧
    (∀ (u : Updater) (n : String), u.count n = 0 → u.removeByName n = u) ∧
    (∀ (ops : List SubOp) (w : TopicDiagnosticWrapper),
      (runSubOps subFresh ops).sub.diagnostic_ = some w →
      ((runSubOps subFresh ops).sub.destroy
        (runSubOps subFresh ops).upd).1.count w.name = 0) ∧
    (∀ (p : DiagnosedPublisher) (u : Updater) (pe : PubDiag),
      p.publisher_ = some pe → u.count pe.name ≤ 1 →
      (p.destroy u).1.count pe.name = 0 ∧
      (p.destroy u).2 = [Event.removeEntry pe.name]) := by
  refine ⟨fun w u => rfl, ?_, ?_, ?_⟩
  · intro u n h
    cases u with
    | mk tasks =>
        unfold Updater.removeByName
        congr 1
        exact List.erase_of_not_mem
          (by simpa [Updater.count, List.count_eq_zero] using h)
  · intro ops w hw
    have hsync := regSync_runSubOps subFresh ops regSync_fresh
    unfold regSync at hsync
    simp only [ownedOfSub, hw] at hsync
    simp [DiagnosedSubscriber.destroy, hw, TopicDiagnosticWrapper.destroy,
      Updater.removeByName, Updater.count, hsync]
  · intro p u pe hpe hle
    constructor
    · simp only [DiagnosedPublisher.destroy, hpe, Updater.removeByName,
        Updater.count]
      rw [List.count_erase_self]
      simp only [Updater.count] at hle
      omega
    · simp [DiagnosedPublisher.destroy, hpe]

/-- Witness for C4: removing the absent key "y" is a no-op, and destroying the
subscriber that subscribed to "scan" leaves zero entries keyed
"scan subscriber". -/
theorem claim4_witness :
    (⟨["x"]⟩ : Updater).removeByName "y" = (⟨["x"]⟩ : Updater) ∧
    ((runSubOps subFresh [SubOp.subscribeTo "scan"]).sub.destroy
      (runSubOps subFresh [SubOp.subscribeTo "scan"]).upd).1.count
        "scan subscriber" = 0 ∧
    (pubBoundA.destroy ⟨["a"]⟩).1.count "a" = 0 :=
  ⟨claim4_destruction_cleanup.2.1 ⟨["x"]⟩ "y" (by decide),
    claim4_destruction_cleanup.2.2.1 [SubOp.subscribeTo "scan"]
      ⟨"scan subscriber", DVal.fin 0⟩ rfl,
    (claim4_destruction_cleanup.2.2.2 pubBoundA ⟨["a"]⟩
      ⟨"a", "a", DVal.fin 0⟩ rfl (by decide)).1⟩
